import Mathlib

/-!
Verification development for the mcp-confluence MCP server.

This file gives a shallow embedding, in Lean 4, of the request-handling,
rate-limiting, token-renewal, content-validation and page-update logic of
the repository, and proves (or refutes) the frozen claims about it.

Source files embedded:
  * `src/src/server.ts` — `ConfluenceMCPServer` (storage-format gate,
    tool dispatch, page handlers, setup handler);
  * `src/unnamed/part_005` — `ConfluenceClient` (axios interceptors:
    fixed-window rate limiter and 401-renewal-retry; `updatePage` with
    re-fetch, empty-body rejection and 409/400 handling);
  * `src/src/utils/errors.ts` — error classes and `ConfigManager`
    (`validateConfig` / `saveConfig` / `getConfig`).

Conventions: JavaScript strings are Lean `String` (scanned as `List Char`),
`Date.now()` timestamps are `Int` (milliseconds), `undefined`-able values
are `Option`, thrown exceptions are explicit error results, and network
responses are parameters (oracles) supplied to the embedded functions.
-/

/-! ## String scanning helpers

The content gate in `server.ts` (`validateStorageFormat`) tests the body
against JavaScript regular expressions.  Each regex below is embedded as a
structurally recursive Boolean matcher on `List Char` with the exact
semantics of the corresponding pattern (multiline `^`, `.` not matching
newline, negated classes matching newline, JS `\s`). -/

/-- Does `p` hold on some suffix of the character list (i.e. does the
pattern match starting at some position)? -/
def anySuffix (p : List Char → Bool) : List Char → Bool
  | [] => p []
  | c :: cs => p (c :: cs) || anySuffix p cs

/-- Is `pat` a prefix of `cs`? -/
def startsWithSeq : List Char → List Char → Bool
  | [], _ => true
  | _ :: _, [] => false
  | p :: ps, c :: cs => p = c && startsWithSeq ps cs

/-- Does `cs` contain `pat` as a contiguous subsequence? -/
def containsSeq (pat cs : List Char) : Bool :=
  anySuffix (startsWithSeq pat) cs

/-! ### Markdown patterns (`markdownPatterns` in `server.ts`) -/

/-- Modelled from the spec: remote entities are opaque pass-through
structures of which only title, body (storage value), version number and
space key are interpreted (`types.ts` is absent from the provided
sources; the fields are those the embedded code reads). -/
structure PageVersion where
  number : Nat
deriving DecidableEq, Repr

/-- `space` field of a page: only `key` is read. -/
structure SpaceRef where
  key : String
deriving DecidableEq, Repr

/-- `body.storage` of a page: only `value` is read. -/
structure StorageBody where
  value : String
deriving DecidableEq, Repr

/-- `body` of a page: the `storage` representation may be absent when not
expanded. -/
structure PageBody where
  storage : Option StorageBody
deriving DecidableEq, Repr

/-- A Confluence page as read by the embedded code. -/
structure ConfluencePage where
  id : String
  title : String
  version : Option PageVersion
  space : Option SpaceRef
  body : Option PageBody
deriving DecidableEq, Repr

/-- The JSON body of a non-2xx remote response, with the fields the
embedded code reads: `status` (read by `updatePage`'s catch through
`error.response?.status`), `message` (read by the interceptor and the
400-branch), and `data.message` (read by the 400-branch as
`error.response?.data?.message` on the wrapped error). -/
structure ErrorBody where
  status : Option Nat
  message : Option String
  dataMessage : Option String
deriving DecidableEq, Repr

/-- A thrown JavaScript error as it reaches a `catch`: its class
(`name`), `message`, and — for `ConfluenceAPIError` and subclasses from
`src/utils/errors.ts` — `statusCode` and `response` (the original
response *data*, not the response object). -/
structure JsError where
  name : String
  message : String
  statusCode : Option Nat
  response : Option ErrorBody
deriving DecidableEq, Repr

/-- Models `JSON.stringify` on an error body (used only when the body has
no usable `message`); the exact text is not load-bearing for any claim. -/
def errorBodyJson (b : ErrorBody) : String :=
  "\x7b \"status\": " ++ (match b.status with
    | some n => toString n
    | none => "undefined") ++ " \x7d"

/-- `const errorMessage = (error.response?.data as any)?.message ||
error.response?.data || error.message;` followed by the string/stringify
choice (`part_005` lines 67–68), for the case where a response body is
present.  A present but empty `message` is falsy in JS, hence the
empty-string case. -/
def detailedMessage (b : ErrorBody) : String :=
  match b.message with
  | some m => if m = "" then errorBodyJson b else m
  | none => errorBodyJson b

/-- The `message` axios gives an `AxiosError` for an HTTP error response. -/
def axiosMessage (status : Nat) : String :=
  "Request failed with status code " ++ toString status

/-- The response-error interceptor of `ConfluenceClient.setupInterceptors`
(`part_005` lines 41–75) for statuses other than 401: 403 becomes
`AuthenticationError` (whose constructor hard-codes `statusCode` 401),
429 becomes `RateLimitError`, and anything else becomes a generic
`ConfluenceAPIError` carrying the HTTP status in `statusCode` and the
response *data* in `response`.  The 401 branch (renewal and retry) is
embedded separately as `performRequest`. -/
def interceptWrap (status : Nat) (body : ErrorBody) : JsError :=
  if status = 403 then
    ⟨"AuthenticationError", "Access denied. Check your permissions.",
      some 401, none⟩
  else if status = 429 then
    ⟨"RateLimitError", "Rate limit exceeded. Please wait a moment.",
      some 429, none⟩
  else
    ⟨"ConfluenceAPIError",
      axiosMessage status ++ " - Details: " ++ detailedMessage body,
      some status, some body⟩

/-- The `TokenExpiredError` thrown when token renewal fails
(`part_005` line 55). -/
def tokenRenewalFailedError : JsError :=
  ⟨"TokenExpiredError", "Token renewal failed", some 401, none⟩

/-! ## Fixed-window rate limiter

`ConfluenceClient.setupRateLimiting` (`part_005` lines 79–97, identical
in `src/src/confluence/client.ts` lines 76–94) keeps two closure
variables `requestCount` and `windowStart` and installs a request
interceptor that runs before every outbound call. -/

/-- The limiter's closure state: `requestCount` and `windowStart`. -/
structure RateLimitState where
  requestCount : Nat
  windowStart : Int
deriving DecidableEq, Repr

/-- The relevant part of the configuration record: `rateLimitRequests`
(quota) and `rateLimitWindowMs` (window length).  The config schema
(`configSchema` in `src/utils/errors.ts`) forces both to be positive
integers. -/
structure RateConfig where
  rateLimitRequests : Nat
  rateLimitWindowMs : Int
deriving DecidableEq, Repr

/-- `let requestCount = 0; let windowStart = Date.now();` -/
def rateLimitInit (now : Int) : RateLimitState := ⟨0, now⟩

/-- What one pass through the request interceptor does: proceed with the
call, or throw `RateLimitError('Client-side rate limit exceeded')`. -/
inductive RateDecision
  | proceed
  | reject (msg : String)
deriving DecidableEq, Repr

/-- One execution of the rate-limiting request interceptor at time `now`:
reset the window if strictly more than `rateLimitWindowMs` has elapsed,
then reject if the count has reached the quota, otherwise increment the
count and let the request proceed.  The state returned alongside the
decision is the value of the closure variables after the interceptor
runs (the reset assignments happen before the quota check, so they are
kept even when the call is rejected). -/
def rateLimitStep (cfg : RateConfig) (now : Int) (st : RateLimitState) :
    RateDecision × RateLimitState :=
  let st1 := if now - st.windowStart > cfg.rateLimitWindowMs then
    ⟨0, now⟩ else st
  if st1.requestCount ≥ cfg.rateLimitRequests then
    (.reject "Client-side rate limit exceeded", st1)
  else
    (.proceed, ⟨st1.requestCount + 1, st1.windowStart⟩)

/-! ## The 401 renewal-and-retry flow

The response-error interceptor's 401 branch calls
`configManager.requestTokenRenewal()`; on success it re-reads the config,
rebuilds the axios client (`initializeClient`, which installs the same
interceptors on the new client) and resubmits the original request
through the new client — so that resubmission is again subject to the
same 401 handling.  On failure it throws
`TokenExpiredError('Token renewal failed')`.

`performRequest` embeds one logical outbound call: `responses` scripts
what the remote returns to each successive submission of the request, and
`renewals` scripts whether each successive token renewal succeeds
(renewal succeeding means `ConfigManager.updateToken` validated the fresh
token live, persisted it, and the client was rebuilt with the new auth
header). -/

/-- What the remote does with one submission of the request. -/
inductive RemoteResponse
  | success (page : ConfluencePage)
  | failure (status : Nat) (body : ErrorBody)
deriving DecidableEq, Repr

instance {ε α : Type} [DecidableEq ε] [DecidableEq α] :
    DecidableEq (Except ε α) := fun x y =>
  match x, y with
  | .ok a, .ok b =>
    if h : a = b then .isTrue (by rw [h])
    else .isFalse (by intro hh; cases hh; exact h rfl)
  | .error a, .error b =>
    if h : a = b then .isTrue (by rw [h])
    else .isFalse (by intro hh; cases hh; exact h rfl)
  | .ok _, .error _ => .isFalse (by intro hh; cases hh)
  | .error _, .ok _ => .isFalse (by intro hh; cases hh)

/-- Result of the call together with how many renewal-and-retry cycles
were performed. -/
inductive CallResult
  | settled (r : Except JsError ConfluencePage)
  | pending   -- the scripted responses/renewals ran out with the call still in flight
deriving DecidableEq, Repr

/-- One outbound call through the interceptor chain, following
`setupInterceptors` (`part_005` lines 39–77).  Returns the settled
outcome and the number of renewal-and-retry cycles (resubmissions)
performed. -/
def performRequest : List RemoteResponse → List Bool → CallResult × Nat
  | [], _ => (.pending, 0)
  | .success page :: _, _ => (.settled (.ok page), 0)
  | .failure status body :: rest, renewals =>
    if status = 401 then
      match renewals with
      | [] => (.pending, 0)
      | renewalOk :: rs =>
        if renewalOk then
          let r := performRequest rest rs
          (r.1, r.2 + 1)
        else
          (.settled (.error tokenRenewalFailedError), 0)
    else
      (.settled (.error (interceptWrap status body)), 0)


/-! ## `ConfluenceClient.updatePage` (`part_005` lines 189–253)

The method first re-fetches the current page with
`expand = ['version', 'space', 'body.storage']`, builds the update
payload (falling back to the current body/title when no override is
supplied and rejecting an empty resulting body before any PUT), submits
`version = current + 1`, and catches PUT failures, looking for 409 and
400 on `error.response?.status` of the error it caught — which, after
the interceptor ran, is the wrapped `ConfluenceAPIError` whose
`response` field holds the response *body*. -/

/-- The PUT payload `updateData` (the fields the code sets). -/
structure UpdatePayload where
  id : String
  title : String
  spaceKey : String
  bodyValue : String
  versionNumber : Nat
deriving DecidableEq, Repr

/-- The POST payload of `ConfluenceClient.createPage`; `content` is
placed verbatim in `body.storage.value`. -/
structure CreateRequest where
  spaceKey : String
  title : String
  content : String
  parentId : Option String
deriving DecidableEq, Repr

/-- An outbound network request issued by the embedded operations. -/
inductive NetRequest
  | getPage (pageId : String) (expand : List String)
  | putPage (payload : UpdatePayload)
  | postPage (req : CreateRequest)
deriving DecidableEq, Repr

/-- `currentPage.body?.storage?.value || ''` — the current body value,
with the empty string for an absent (or empty, `||` being a falsiness
choice) storage body. -/
def currentBodyValue (page : ConfluencePage) : String :=
  match page.body with
  | some b =>
    match b.storage with
    | some s => s.value
    | none => ""
  | none => ""

/-- Lines 193–227 of `part_005`: the checks and the construction of
`updateData`, everything `updatePage` does between the GET and the PUT. -/
def buildUpdatePayload (pageId : String) (title content : Option String)
    (currentPage : ConfluencePage) : Except String UpdatePayload :=
  match currentPage.version with
  | none => .error "Unable to retrieve page version information"
  | some v =>
    match currentPage.space with
    | none => .error "Unable to retrieve page space information"
    | some sp =>
      let currentContent := currentBodyValue currentPage
      let finalContent := match content with
        | some c => c
        | none => currentContent
      let finalTitle := match title with
        | some t => t
        | none => currentPage.title
      if finalContent = "" then
        .error "Cannot update page with empty content. Provide content or ensure the page has existing content."
      else
        .ok ⟨pageId, finalTitle, sp.key, finalContent, v.number + 1⟩

/-- How one `client.put` settles, as seen by `updatePage`'s `try`:
either the promise fulfills with the updated page, or it rejects.  A
rejection caused by a non-401 HTTP response has been classified by the
response interceptor (`interceptWrap`); a 401 whose renewal flow ended in
failure rejects with `tokenRenewalFailedError` (the successful-renewal
retries are internal to the interceptor chain, see `performRequest`). -/
inductive PutSettled
  | fulfilled (page : ConfluencePage)
  | rejectedHttp (status : Nat) (body : ErrorBody)
  | rejectedRenewal
deriving DecidableEq, Repr

/-- The `catch` block of `updatePage` (lines 234–252), applied to the
error the PUT rejected with.  It reads `error.response?.status`: on the
wrapped `ConfluenceAPIError` the `response` field is the remote response
*body*, so the comparison is against the body's own `status` field, not
the HTTP status. -/
def updatePageCatch (e : JsError) : JsError :=
  match e.response with
  | some body =>
    if body.status = some 409 then
      ⟨"Error", "Version conflict: The page was modified by another user. Please try again.", none, none⟩
    else if body.status = some 400 then
      match body.dataMessage with
      | some m =>
        if containsSeq ['v', 'e', 'r', 's', 'i', 'o', 'n'] m.toList then
          ⟨"Error", "Version error: " ++ m, none, none⟩
        else
          ⟨"Error", "Validation error: " ++ m, none, none⟩
      | none => ⟨"Error", "Validation error: Invalid request data", none, none⟩
    else e
  | none => e

/-- Outcome of one `updatePage` call. -/
inductive UpdateResultKind
  | ok (page : ConfluencePage)
  | failed (e : JsError)
deriving DecidableEq, Repr

/-- `ConfluenceClient.updatePage`, given the result `fetched` of the
(successful) initial GET and the behaviour `putResp` of the PUT.  Also
returns the list of network requests issued, in order. -/
def updatePage (pageId : String) (title content : Option String)
    (fetched : ConfluencePage) (putResp : UpdatePayload → PutSettled) :
    UpdateResultKind × List NetRequest :=
  let getReq := NetRequest.getPage pageId ["version", "space", "body.storage"]
  match buildUpdatePayload pageId title content fetched with
  | .error msg => (.failed ⟨"Error", msg, none, none⟩, [getReq])
  | .ok payload =>
    match putResp payload with
    | .fulfilled page => (.ok page, [getReq, .putPage payload])
    | .rejectedHttp status body =>
      (.failed (updatePageCatch (interceptWrap status body)),
        [getReq, .putPage payload])
    | .rejectedRenewal =>
      (.failed (updatePageCatch tokenRenewalFailedError),
        [getReq, .putPage payload])

/-! ## Tool result envelopes and the page handlers (`server.ts`) -/

/-- One entry of a tool result's `content` array (always
`{ type: 'text', text }` in this server). -/
inductive ContentBlock
  | text (s : String)
deriving DecidableEq, Repr

/-- A tool-call result: `{ content: [...] }`. -/
structure ToolResult where
  content : List ContentBlock
deriving DecidableEq, Repr

/-- The single-text-block result every handler builds. -/
def mkToolResult (t : String) : ToolResult := ⟨[.text t]⟩

/-- The configuration record (`configSchema`). -/
structure Config where
  confluenceBaseUrl : String
  confluenceEmail : String
  confluenceApiToken : String
  logLevel : String
  rateLimitRequests : Nat
  rateLimitWindowMs : Nat
  tokenExpiryDate : Option String
  lastValidated : Option String
deriving DecidableEq, Repr

/-- `ConfigManager.getConfig`: the stored config, or a thrown error when
none is loaded. -/
def getConfig (stored : Option Config) : Except String Config :=
  match stored with
  | some c => .ok c
  | none => .error "Konfiguration nicht geladen. Rufen Sie loadConfig() auf."

/-- The arguments of `setup_confluence` after zod parsing (all three
credential fields optional at the schema level). -/
structure SetupArgs where
  confluenceBaseUrl : Option String
  confluenceEmail : Option String
  confluenceApiToken : Option String
deriving DecidableEq, Repr

/-- Outcome text of `handleSetupConfluence` (always a single text
block). -/
inductive SetupOutcome
  | success (text : String)
  | failure (text : String)
deriving DecidableEq, Repr

/-- The `'setup'` case of `ConfluenceMCPServer.handleSetupConfluence`
(`server.ts` lines 592–622): require all three credentials, build the
candidate config with the fixed defaults, validate it live, and only on
success stamp `lastValidated` and persist via `saveConfig`.  The
returned `Option Config` is the stored configuration after the call
(`ConfigManager`'s state); on a failed live check the inner `catch`
renders the error and the store is untouched. -/
def handleSetupAction (liveCheck : Config → Bool) (nowIso : String)
    (stored : Option Config) (args : SetupArgs) :
    SetupOutcome × Option Config :=
  match args.confluenceBaseUrl, args.confluenceEmail,
      args.confluenceApiToken with
  | some url, some email, some token =>
    let newConfig : Config :=
      ⟨url, email, token, "info", 100, 60000, none, none⟩
    if liveCheck newConfig then
      let saved := { newConfig with lastValidated := some nowIso }
      (.success "✅ Confluence configuration successfully saved and validated!",
        some saved)
    else
      (.failure "❌ Configuration error: Configuration invalid - please check your inputs",
        stored)
  | _, _, _ =>
    (.failure "❌ Configuration error: For setup, confluenceBaseUrl, confluenceEmail and confluenceApiToken are required",
      stored)

/-! ## The tool-call dispatcher (`server.ts` lines 322–365)

The `CallToolRequestSchema` handler wraps everything — the
`setup_confluence` special case, `ensureConfigured`, the `switch` over
tool names (throwing `Unknown tool` on a miss), and the selected
handler — in one `try`; its `catch` renders any thrown error as a single
text block `"❌ Error executing tool <name>: <message>"`.  The handlers
themselves run network calls, so their behaviour is scripted: a
`Except.error m` models the handler (or zod validation inside it)
throwing with message `m`, and `Except.ok r` models it resolving with
result `r`. -/

/-- The eight tools dispatched after `ensureConfigured` (i.e. all
declared tools except `setup_confluence`). -/
def knownToolNames : List String :=
  ["search_confluence", "get_page", "get_space", "list_spaces",
    "search_pages", "get_recent_pages", "create_page", "update_page"]

/-- Scripted behaviour of one tool call: the tool name, what
`handleSetupConfluence` would do, whether `ensureConfigured` succeeds,
and what the selected ordinary handler would do. -/
structure DispatchInput where
  name : String
  setupRun : Except String ToolResult
  configLoad : Except String Unit
  handlerRun : Except String ToolResult

/-- The body of the dispatcher's `try` block: everything before the
`catch`. -/
def dispatchAttempt (inp : DispatchInput) : Except String ToolResult :=
  if inp.name = "setup_confluence" then inp.setupRun
  else
    match inp.configLoad with
    | .error e => .error e
    | .ok _ =>
      if knownToolNames.contains inp.name then inp.handlerRun
      else .error ("Unknown tool: " ++ inp.name)

/-- The `CallToolRequestSchema` handler: the `try` body plus the `catch`
that renders any thrown error as an application-level text result.  The
function is total: no exception crosses this boundary. -/
def callToolHandler (inp : DispatchInput) : ToolResult :=
  match dispatchAttempt inp with
  | .ok r => r
  | .error e =>
    mkToolResult ("❌ Error executing tool " ++ inp.name ++ ": " ++ e)

/-! ## Claims -/

/-- **C1**: for attempts within the current rate-limit window, an attempt
with the count strictly below the quota proceeds and increments the count
by one; the attempt made when the count has reached the quota is rejected
with the client-side rate-limit error before the request is handed to the
network layer; and once strictly more than the window length has elapsed
the state resets (count to zero, window start to now) and that next
attempt proceeds (leaving count 1).  The quota is positive by the config
schema. -/
theorem c1_rate_limiter_window (cfg : RateConfig) (now : Int)
    (st : RateLimitState) (hq : 0 < cfg.rateLimitRequests) :
    (now - st.windowStart ≤ cfg.rateLimitWindowMs →
      st.requestCount < cfg.rateLimitRequests →
      rateLimitStep cfg now st =
        (.proceed, ⟨st.requestCount + 1, st.windowStart⟩))
    ∧ (now - st.windowStart ≤ cfg.rateLimitWindowMs →
      st.requestCount = cfg.rateLimitRequests →
      rateLimitStep cfg now st =
        (.reject "Client-side rate limit exceeded", st))
    ∧ (now - st.windowStart > cfg.rateLimitWindowMs →
      rateLimitStep cfg now st = (.proceed, ⟨1, now⟩)) := by
  refine ⟨fun hw hc => ?_, fun hw hc => ?_, fun hw => ?_⟩
  · unfold rateLimitStep
    rw [if_neg (by omega : ¬ now - st.windowStart > cfg.rateLimitWindowMs)]
    rw [if_neg (by omega : ¬ st.requestCount ≥ cfg.rateLimitRequests)]
  · unfold rateLimitStep
    rw [if_neg (by omega : ¬ now - st.windowStart > cfg.rateLimitWindowMs)]
    rw [if_pos (by omega : st.requestCount ≥ cfg.rateLimitRequests)]
  · unfold rateLimitStep
    rw [if_pos hw]
    rw [if_neg (by simpa using by omega : ¬ (0 : Nat) ≥ cfg.rateLimitRequests)]

/-- Witness for **C1** at quota 2, window 60000 ms. -/
theorem c1_rate_limiter_window_witness :
    rateLimitStep ⟨2, 60000⟩ 1000 ⟨0, 0⟩ = (.proceed, ⟨1, 0⟩)
    ∧ rateLimitStep ⟨2, 60000⟩ 1000 ⟨2, 0⟩ =
        (.reject "Client-side rate limit exceeded", ⟨2, 0⟩)
    ∧ rateLimitStep ⟨2, 60000⟩ 70000 ⟨2, 0⟩ = (.proceed, ⟨1, 70000⟩) :=
  ⟨(c1_rate_limiter_window ⟨2, 60000⟩ 1000 ⟨0, 0⟩ (by decide)).1
      (by decide) (by decide),
    (c1_rate_limiter_window ⟨2, 60000⟩ 1000 ⟨2, 0⟩ (by decide)).2.1
      (by decide) rfl,
    (c1_rate_limiter_window ⟨2, 60000⟩ 70000 ⟨2, 0⟩ (by decide)).2.2
      (by decide)⟩

/-- **C8** counterexample: an attempt rejected by the client-side limiter
(count 2 = quota 2, still inside the window) leaves the rate-limit state
completely unchanged — the claim that the state is mutated on *every*
outbound call attempt, including rejected ones, is false. -/
theorem c8_counterexample :
    rateLimitStep ⟨2, 60000⟩ 1000 ⟨2, 0⟩ =
      (.reject "Client-side rate limit exceeded", ⟨2, 0⟩) := rfl

/-- **C8** (amended): the rate-limit window state is mutated on every
attempt that proceeds (count incremented, and additionally reset when the
window had elapsed), but an attempt rejected by the client-side limiter
leaves the state unchanged.  Quota and window length are positive by the
config schema. -/
theorem c8_state_mutation (cfg : RateConfig) (now : Int)
    (st : RateLimitState) (hq : 0 < cfg.rateLimitRequests)
    (hw : 0 < cfg.rateLimitWindowMs) :
    (∀ m, (rateLimitStep cfg now st).1 = .reject m →
      (rateLimitStep cfg now st).2 = st)
    ∧ ((rateLimitStep cfg now st).1 = .proceed →
      (rateLimitStep cfg now st).2 ≠ st) := by
  unfold rateLimitStep
  by_cases hreset : now - st.windowStart > cfg.rateLimitWindowMs
  · rw [if_pos hreset]
    rw [if_neg (by omega : ¬ (0 : Nat) ≥ cfg.rateLimitRequests)]
    refine ⟨fun m h => by simp at h, fun _ => ?_⟩
    intro hEq
    have hws : st.windowStart = now := congrArg RateLimitState.windowStart hEq.symm
    omega
  · rw [if_neg hreset]
    by_cases hquota : st.requestCount ≥ cfg.rateLimitRequests
    · rw [if_pos hquota]
      exact ⟨fun m _ => rfl, fun h => by simp at h⟩
    · rw [if_neg hquota]
      refine ⟨fun m h => by simp at h, fun _ => ?_⟩
      intro hEq
      have hc : st.requestCount + 1 = st.requestCount :=
        congrArg RateLimitState.requestCount hEq
      omega

/-- Witness for **C8** (amended): a rejected attempt leaves the state
unchanged; a proceeding attempt changes it. -/
theorem c8_state_mutation_witness :
    (rateLimitStep ⟨2, 60000⟩ 1000 ⟨2, 0⟩).2 = ⟨2, 0⟩
    ∧ (rateLimitStep ⟨2, 60000⟩ 1000 ⟨0, 0⟩).2 ≠ ⟨0, 0⟩ :=
  ⟨(c8_state_mutation ⟨2, 60000⟩ 1000 ⟨2, 0⟩ (by decide) (by decide)).1
      "Client-side rate limit exceeded" rfl,
    (c8_state_mutation ⟨2, 60000⟩ 1000 ⟨0, 0⟩ (by decide) (by decide)).2 rfl⟩

/-- **C2** counterexample: a call whose first two submissions both return
401, with both token renewals succeeding, performs *two*
renewal-and-retry cycles before settling — the interceptor installs
itself on the rebuilt client, so the resubmission is again subject to
401-triggered renewal.  The claim's "exactly one renewal-and-retry
cycle … resubmits the original request exactly once" is false. -/
theorem c2_counterexample :
    performRequest
      [.failure 401 ⟨some 401, some "Unauthorized", none⟩,
        .failure 401 ⟨some 401, some "Unauthorized", none⟩,
        .success ⟨"123", "Page", none, none, none⟩]
      [true, true] =
    (.settled (.ok ⟨"123", "Page", none, none, none⟩), 2) := rfl

/-- **C2** (amended): each 401 response triggers one renewal-and-retry
cycle — renewal is requested (persisting the fresh token and rebuilding
the client on success) and the request is resubmitted once per cycle; if
the renewal fails, the call fails with
`TokenExpiredError('Token renewal failed')` and nothing is resubmitted.
A resubmission that itself returns 401 triggers a further cycle, so the
number of cycles is bounded only by a non-401 response or a renewal
failure, not by one. -/
theorem c2_renewal_per_401 (body : ErrorBody) (rest : List RemoteResponse)
    (renewals : List Bool) :
    performRequest (.failure 401 body :: rest) (true :: renewals) =
      ((performRequest rest renewals).1, (performRequest rest renewals).2 + 1)
    ∧ performRequest (.failure 401 body :: rest) (false :: renewals) =
      (.settled (.error tokenRenewalFailedError), 0) := by
  constructor <;> simp [performRequest]

/-- **C3**: evaluation of `updatePage` at the failing input.  A page
currently at remote version 5 is updated: the payload submitted carries
version 6 (= V+1), as the claim states.  But when the remote rejects the
PUT with HTTP 409 and a realistic Confluence error body (which carries
`statusCode`/`message`, not a top-level `status` field), the surfaced
error is the *generic* `ConfluenceAPIError` wrapping — the catch block
compares `error.response?.status` on the interceptor-wrapped error,
whose `response` field is the response body, so its dedicated
"Version conflict" branch never fires. -/
theorem c3_version_conflict_at_failing_input :
    updatePage "123" none (some "<p>new</p>")
      ⟨"123", "Old title", some ⟨5⟩, some ⟨"DEMO"⟩,
        some ⟨some ⟨"<p>old</p>"⟩⟩⟩
      (fun _ => .rejectedHttp 409 ⟨none, some "Current version is: 6", none⟩) =
    (.failed ⟨"ConfluenceAPIError",
        "Request failed with status code 409 - Details: Current version is: 6",
        some 409, some ⟨none, some "Current version is: 6", none⟩⟩,
      [.getPage "123" ["version", "space", "body.storage"],
        .putPage ⟨"123", "Old title", "DEMO", "<p>new</p>", 6⟩])
    ∧ (⟨"ConfluenceAPIError",
        "Request failed with status code 409 - Details: Current version is: 6",
        some 409, some ⟨none, some "Current version is: 6", none⟩⟩ : JsError) ≠
      ⟨"Error",
        "Version conflict: The page was modified by another user. Please try again.",
        none, none⟩ := by
  constructor
  · rfl
  · decide

/-- **C4**: when no content override is supplied, `updatePage` submits
exactly the body value fetched from the current page (byte for byte) and,
when no title override is supplied either, the current title; and when
the resulting body would be the empty string, the call is rejected with
the dedicated local error and no PUT is issued (only the initial GET has
happened). -/
theorem c4_update_reuses_current_body (pageId : String)
    (title : Option String) (page : ConfluencePage)
    (putResp : UpdatePayload → PutSettled) (v : PageVersion) (sp : SpaceRef)
    (hv : page.version = some v) (hs : page.space = some sp) :
    (currentBodyValue page ≠ "" →
      (updatePage pageId title none page putResp).2 =
        [.getPage pageId ["version", "space", "body.storage"],
          .putPage ⟨pageId, title.getD page.title, sp.key,
            currentBodyValue page, v.number + 1⟩])
    ∧ (currentBodyValue page = "" →
      updatePage pageId title none page putResp =
        (.failed ⟨"Error",
            "Cannot update page with empty content. Provide content or ensure the page has existing content.",
            none, none⟩,
          [.getPage pageId ["version", "space", "body.storage"]])) := by
  constructor
  · intro hne
    unfold updatePage buildUpdatePayload
    rw [hv, hs]
    simp only []
    rw [if_neg hne]
    have hT : (match title with | some t => t | none => page.title) =
        title.getD page.title := by cases title <;> rfl
    rw [hT]
    cases hput : putResp ⟨pageId, title.getD page.title, sp.key,
        currentBodyValue page, v.number + 1⟩ <;> simp [hput]
  · intro he
    unfold updatePage buildUpdatePayload
    rw [hv, hs]
    simp only []
    rw [if_pos he]

/-- Witness for **C4**: a page at version 5 with body `<p>old</p>` and a
title-only update; and an empty-bodied page update being rejected
locally. -/
theorem c4_update_reuses_current_body_witness :
    (updatePage "123" (some "New title") none
      ⟨"123", "Old title", some ⟨5⟩, some ⟨"DEMO"⟩,
        some ⟨some ⟨"<p>old</p>"⟩⟩⟩
      (fun _ => .rejectedRenewal)).2 =
      [.getPage "123" ["version", "space", "body.storage"],
        .putPage ⟨"123", "New title", "DEMO", "<p>old</p>", 6⟩]
    ∧ updatePage "123" (some "New title") none
      ⟨"123", "Old title", some ⟨5⟩, some ⟨"DEMO"⟩, some ⟨none⟩⟩
      (fun _ => .rejectedRenewal) =
      (.failed ⟨"Error",
          "Cannot update page with empty content. Provide content or ensure the page has existing content.",
          none, none⟩,
        [.getPage "123" ["version", "space", "body.storage"]]) :=
  ⟨(c4_update_reuses_current_body "123" (some "New title")
      ⟨"123", "Old title", some ⟨5⟩, some ⟨"DEMO"⟩,
        some ⟨some ⟨"<p>old</p>"⟩⟩⟩
      (fun _ => .rejectedRenewal) ⟨5⟩ ⟨"DEMO"⟩ rfl rfl).1 (by decide),
    (c4_update_reuses_current_body "123" (some "New title")
      ⟨"123", "Old title", some ⟨5⟩, some ⟨"DEMO"⟩, some ⟨none⟩⟩
      (fun _ => .rejectedRenewal) ⟨5⟩ ⟨"DEMO"⟩ rfl rfl).2 rfl⟩

/-- **C6**: `setup_confluence` with `action=setup` validates the
submitted credentials live before persisting.  If the live check fails,
the stored configuration is unchanged (nothing is persisted) and the
handler reports a configuration error; if it succeeds, the persisted
configuration consists of exactly the submitted fields (plus the fixed
defaults the handler sets) with a `lastValidated` timestamp, and a
subsequent `getConfig()` returns it. -/
theorem c6_validate_before_persist (liveCheck : Config → Bool)
    (nowIso : String) (stored : Option Config) (url email token : String) :
    (liveCheck ⟨url, email, token, "info", 100, 60000, none, none⟩ = false →
      handleSetupAction liveCheck nowIso stored
          ⟨some url, some email, some token⟩ =
        (.failure "❌ Configuration error: Configuration invalid - please check your inputs",
          stored))
    ∧ (liveCheck ⟨url, email, token, "info", 100, 60000, none, none⟩ = true →
      handleSetupAction liveCheck nowIso stored
          ⟨some url, some email, some token⟩ =
        (.success "✅ Confluence configuration successfully saved and validated!",
          some ⟨url, email, token, "info", 100, 60000, none, some nowIso⟩)
      ∧ getConfig (handleSetupAction liveCheck nowIso stored
          ⟨some url, some email, some token⟩).2 =
        .ok ⟨url, email, token, "info", 100, 60000, none, some nowIso⟩) := by
  constructor
  · intro h
    simp [handleSetupAction, h]
  · intro h
    refine ⟨by simp [handleSetupAction, h], ?_⟩
    simp [handleSetupAction, h, getConfig]

/-- Witness for **C6**: a live check accepting exactly the token
`"valid-token"`; setup with `"bad-token"` leaves the store unchanged,
setup with `"valid-token"` persists the submitted fields plus
`lastValidated`. -/
theorem c6_validate_before_persist_witness :
    handleSetupAction (fun c => c.confluenceApiToken == "valid-token")
        "2026-02-03T04:05:06.000Z" none
        ⟨some "https://x.atlassian.net", some "a@b.example",
          some "bad-token"⟩ =
      (.failure "❌ Configuration error: Configuration invalid - please check your inputs",
        none)
    ∧ handleSetupAction (fun c => c.confluenceApiToken == "valid-token")
        "2026-02-03T04:05:06.000Z" none
        ⟨some "https://x.atlassian.net", some "a@b.example",
          some "valid-token"⟩ =
      (.success "✅ Confluence configuration successfully saved and validated!",
        some ⟨"https://x.atlassian.net", "a@b.example", "valid-token",
          "info", 100, 60000, none, some "2026-02-03T04:05:06.000Z"⟩) :=
  ⟨(c6_validate_before_persist (fun c => c.confluenceApiToken == "valid-token")
      "2026-02-03T04:05:06.000Z" none "https://x.atlassian.net"
      "a@b.example" "bad-token").1 (by decide),
    ((c6_validate_before_persist (fun c => c.confluenceApiToken == "valid-token")
      "2026-02-03T04:05:06.000Z" none "https://x.atlassian.net"
      "a@b.example" "valid-token").2 (by decide)).1⟩

/-- **C7**: the tool-call dispatcher is total (`callToolHandler` returns
a `ToolResult`; no exception crosses the boundary) and always yields a
single text content block: when the `try` body throws — schema
validation, missing configuration, the content-format gate, an
HTTP-layer error, or an unknown tool name — the result is the error text
prefixed with the failure glyph; when it resolves, the result is the
handler's own single-block payload (every handler in `server.ts` builds
`{ content: [{ type: 'text', text }] }`, which is the hypothesis on the
scripted handler outcomes). -/
theorem c7_dispatcher_boundary (inp : DispatchInput)
    (hSetup : ∀ r, inp.setupRun = .ok r → ∃ s, r = mkToolResult s)
    (hHandler : ∀ r, inp.handlerRun = .ok r → ∃ s, r = mkToolResult s) :
    (∃ t, callToolHandler inp = mkToolResult t)
    ∧ (∀ e, dispatchAttempt inp = .error e →
      callToolHandler inp =
        mkToolResult ("❌ Error executing tool " ++ inp.name ++ ": " ++ e))
    ∧ (∀ r, dispatchAttempt inp = .ok r → callToolHandler inp = r) := by
  refine ⟨?_, fun e he => ?_, fun r hr => ?_⟩
  · cases hA : dispatchAttempt inp with
    | error e =>
      exact ⟨"❌ Error executing tool " ++ inp.name ++ ": " ++ e,
        by unfold callToolHandler; rw [hA]⟩
    | ok r =>
      have : ∃ s, r = mkToolResult s := by
        unfold dispatchAttempt at hA
        by_cases hname : inp.name = "setup_confluence"
        · rw [if_pos hname] at hA
          exact hSetup r hA
        · rw [if_neg hname] at hA
          cases hc : inp.configLoad with
          | error e => rw [hc] at hA; exact absurd hA (by simp)
          | ok u =>
            rw [hc] at hA
            by_cases hk : knownToolNames.contains inp.name
            · rw [if_pos hk] at hA
              exact hHandler r hA
            · rw [if_neg hk] at hA
              exact absurd hA (by simp)
      obtain ⟨s, hs⟩ := this
      exact ⟨s, by unfold callToolHandler; rw [hA, hs]⟩
  · unfold callToolHandler
    rw [he]
  · unfold callToolHandler
    rw [hr]

/-- Witness for **C7**: a `create_page` call whose handler resolves with
a single-block result. -/
theorem c7_dispatcher_boundary_witness :
    ∃ t, callToolHandler
      ⟨"create_page", .error "setup not called", .ok (),
        .ok (mkToolResult "✅ created")⟩ = mkToolResult t :=
  (c7_dispatcher_boundary
    ⟨"create_page", .error "setup not called", .ok (),
      .ok (mkToolResult "✅ created")⟩
    (fun r h => nomatch h)
    (fun r h => ⟨"✅ created", by injection h with h2; exact h2.symm⟩)).1
